import Mathlib

/-!
Shallow embedding of the Blogicum blogging application's view layer
(blog/views.py and blog/forms.py): the persistent data model (users,
categories, posts, comments), HTTP request and response values, and every
view function translated to a pure Lean function over an explicit database
state.  Database rows are stored as lists; the ORM query operations used by
the views (get-by-pk, filter, annotate with a comment count, order by
pub_date descending, paginate) are modelled as list operations.
-/

namespace Blog

/-- A user account (the framework auth model): primary key, username, and
the name/email fields `ProfileEditForm` binds. -/
structure User where
  id : Nat
  username : String
  first_name : String
  last_name : String
  email : String
deriving DecidableEq, Repr

/-- A post category: primary key, slug, and its published flag. -/
structure Category where
  id : Nat
  slug : String
  is_published : Bool
deriving DecidableEq, Repr

/-- A blog post.  `author` and `category` are foreign keys (primary keys
of a `User` and a `Category`); `location` and `image` are the optional
fields; `pub_date` is the publication timestamp (modelled as a `Nat`). -/
structure Post where
  id : Nat
  title : String
  text : String
  pub_date : Nat
  author : Nat
  category : Nat
  location : Option Nat
  image : Option String
  is_published : Bool
deriving DecidableEq, Repr

/-- A comment: text plus foreign keys to its post and its author. -/
structure Comment where
  id : Nat
  text : String
  author : Nat
  post : Nat
deriving DecidableEq, Repr

/-- The database state the views read and mutate. -/
structure DB where
  users : List User
  categories : List Category
  posts : List Post
  comments : List Comment
deriving DecidableEq, Repr

/-- `Post.objects.get(pk=pid)` / `get_object_or_404(Post, pk=post_id)`:
the first stored post with the given primary key, if any. -/
def DB.getPost (db : DB) (pid : Nat) : Option Post :=
  db.posts.find? (fun p => p.id == pid)

/-- `get_object_or_404(Comment, pk=comment_id, post__pk=post_id)`. -/
def DB.getComment (db : DB) (pid cid : Nat) : Option Comment :=
  db.comments.find? (fun c => c.id == cid && c.post == pid)

/-- Category lookup by primary key (dereferencing the `post.category`
foreign key). -/
def DB.getCategory (db : DB) (cid : Nat) : Option Category :=
  db.categories.find? (fun c => c.id == cid)

/-- `post.category.is_published` (ORM: `category__is_published=True`):
true when the referenced category exists and is published. -/
def DB.categoryPublished (db : DB) (cid : Nat) : Bool :=
  match db.getCategory cid with
  | some c => c.is_published
  | none => false

/-- `post.comment_set.all()`: the comments attached to a post. -/
def DB.commentsOf (db : DB) (pid : Nat) : List Comment :=
  db.comments.filter (fun c => c.post == pid)

/-- `annotate(comment_count=Count('comment'))` for one post. -/
def DB.commentCount (db : DB) (pid : Nat) : Nat :=
  (db.commentsOf pid).length

/-- The public-visibility condition checked by `post_detail` and
`add_comment`: `post.is_published and post.pub_date <= current_time and
post.category.is_published`. -/
def DB.publicVisible (db : DB) (now : Nat) (p : Post) : Bool :=
  p.is_published && decide (p.pub_date ≤ now) && db.categoryPublished p.category

/-- `request.user == someUser` for a possibly anonymous request user:
model-instance equality is primary-key equality, and an anonymous user
equals no stored user. -/
def userIsAuthor (u : Option User) (authorId : Nat) : Bool :=
  match u with
  | some usr => usr.id == authorId
  | none => false

/-- Insert an element into a list kept sorted by `key` descending. -/
def insertDescBy (key : α → Nat) (a : α) : List α → List α
  | [] => [a]
  | b :: bs => if key a ≤ key b then b :: insertDescBy key a bs else a :: b :: bs

/-- `order_by('-pub_date')`: sort by `key` descending (insertion sort). -/
def sortDescBy (key : α → Nat) : List α → List α
  | [] => []
  | a :: rest => insertDescBy key a (sortDescBy key rest)

/-- `filter(...).annotate(comment_count=Count('comment'))
.order_by('-pub_date')`: the annotated, ordered queryset a feed view
paginates. -/
def DB.annotatedFeed (db : DB) (f : Post → Bool) : List (Post × Nat) :=
  sortDescBy (fun pr => pr.1.pub_date)
    ((db.posts.filter f).map (fun p => (p, db.commentCount p.id)))

/-- The `Page` object produced by `Paginator.get_page`: the full queryset
(`paginator.object_list`) and the slice for the delivered page. -/
structure PageObj (α : Type) where
  object_list : List α
  page_items : List α
deriving DecidableEq, Repr

/-- `Paginator.num_pages`: `ceil(count / per)`, but at least 1. -/
def numPages (count per : Nat) : Nat :=
  max ((count + per - 1) / per) 1

/-- The page number `Paginator.get_page` settles on: a missing or
non-integer `page` parameter gives page 1, a number below 1 or beyond the
last page gives the last page. -/
def chosenPage (count per : Nat) (pg : Option Nat) : Nat :=
  match pg with
  | none => 1
  | some n => if n < 1 ∨ numPages count per < n then numPages count per else n

/-- `Paginator(l, per).get_page(pg)`. -/
def getPage (l : List α) (per : Nat) (pg : Option Nat) : PageObj α :=
  PageObj.mk l ((l.drop ((chosenPage l.length per pg - 1) * per)).take per)

/-- The fields bound by `ProfileEditForm` (`forms.py`): first_name,
last_name, username, email. -/
structure ProfileEditFormData where
  first_name : String
  last_name : String
  username : String
  email : String
deriving DecidableEq, Repr

/-- The fields bound by `PostForm` (`forms.py`): title, text, pub_date,
location, category, image — and nothing else; in particular no author. -/
structure PostFormData where
  title : String
  text : String
  pub_date : Nat
  location : Option Nat
  image : Option String
  category : Nat
deriving DecidableEq, Repr

/-- An HTTP request as the views consume it: the (possibly anonymous)
authenticated user, the current time (`timezone.now()`), the HTTP method,
the `page` query parameter, whether the bound form validates
(`form.is_valid()`, decided by the framework form layer), and the
submitted form fields. -/
structure Request where
  user : Option User
  now : Nat
  method : String
  page : Option Nat
  formValid : Bool
  postData : PostFormData
  commentText : String
deriving DecidableEq, Repr

/-- A redirect target (`redirect('blog:post_detail', ...)` /
`redirect('blog:profile', ...)`). -/
inductive Redirect where
  | toPostDetail (post_id : Nat)
  | toProfile (username : String)
deriving DecidableEq, Repr

/-- The template context the views build (a dict; unset keys keep their
defaults).  `hasForm` records whether a form object is in the context. -/
structure Context where
  page_obj : PageObj (Post × Nat) := PageObj.mk [] []
  category : Option Category := none
  profileOf : Option User := none
  post : Option Post := none
  comments : List Comment := []
  comment : Option Comment := none
  hasForm : Bool := false
deriving DecidableEq, Repr

/-- A view's outcome: an `Http404` exception, a rendered template, a
redirect, or the `@login_required` redirect to the login page. -/
inductive Response where
  | notFound (msg : String)
  | render (template : String) (ctx : Context)
  | redirect (target : Redirect)
  | loginRedirect
deriving DecidableEq, Repr

/-- Whether a response is an HTTP 404. -/
def Response.isNotFound : Response → Bool
  | Response.notFound _ => true
  | _ => false

/-- `index`: the public feed — published posts with a past `pub_date` in a
published category, annotated, newest first, 10 per page. -/
def index (db : DB) (req : Request) : Response :=
  let post_list := db.annotatedFeed (fun p =>
    p.is_published && decide (p.pub_date ≤ req.now) && db.categoryPublished p.category)
  Response.render "blog/index.html" { page_obj := getPage post_list 10 req.page }

/-- `post_detail`: fetch-or-404, then for a non-author apply the
visibility check (404 on failure), else render the post with its comments
and an unbound comment form. -/
def post_detail (db : DB) (req : Request) (post_id : Nat) : Response :=
  match db.getPost post_id with
  | none => Response.notFound "No Post matches the given query."
  | some post =>
    if !userIsAuthor req.user post.author && !db.publicVisible req.now post then
      Response.notFound "Post not found"
    else
      Response.render "blog/detail.html"
        { post := some post, comments := db.commentsOf post.id, hasForm := true }

/-- `category_posts`: fetch the published category by slug or 404, then
feed of its published past-dated posts. -/
def category_posts (db : DB) (req : Request) (category_slug : String) : Response :=
  match db.categories.find? (fun c => c.slug == category_slug && c.is_published) with
  | none => Response.notFound "No Category matches the given query."
  | some category =>
    let post_list := db.annotatedFeed (fun p =>
      p.category == category.id && p.is_published && decide (p.pub_date ≤ req.now))
    Response.render "blog/category.html"
      { category := some category, page_obj := getPage post_list 10 req.page }

/-- `profile`: fetch the user by username or 404; the owner sees all their
posts, everyone else only the publicly visible ones. -/
def profile (db : DB) (req : Request) (username : String) : Response :=
  match db.users.find? (fun u => u.username == username) with
  | none => Response.notFound "No User matches the given query."
  | some prof =>
    let post_list :=
      if userIsAuthor req.user prof.id then
        db.annotatedFeed (fun p => p.author == prof.id)
      else
        db.annotatedFeed (fun p =>
          p.author == prof.id && p.is_published && decide (p.pub_date ≤ req.now) &&
            db.categoryPublished p.category)
    Response.render "blog/profile.html"
      { profileOf := some prof, page_obj := getPage post_list 10 req.page }

/-- `ProfileEditForm.save()` on the request user: the bound fields
overwrite the instance; the primary key is kept. -/
def applyProfileForm (d : ProfileEditFormData) (u : User) : User :=
  { u with
      first_name := d.first_name, last_name := d.last_name,
      username := d.username, email := d.email }

/-- Persist an updated user (same primary key). -/
def DB.updateUser (db : DB) (u : User) : DB :=
  { db with users := db.users.map (fun w => if w.id == u.id then u else w) }

/-- `EditProfileView` (`LoginRequiredMixin`, `UpdateView` on
`request.user` with `ProfileEditForm`): the object is the requesting user
itself (`get_object`), so no lookup can fail; a valid form saves the
bound fields and redirects to the profile of the saved username
(`get_success_url` reads `self.object.username`); an invalid form
re-renders the `blog/user.html` template.  `d` is the submitted
`request.POST` payload the form binds. -/
def EditProfileView (db : DB) (req : Request) (d : ProfileEditFormData) :
    Response × DB :=
  match req.user with
  | none => (Response.loginRedirect, db)
  | some u =>
    if req.formValid then
      (Response.redirect (Redirect.toProfile (applyProfileForm d u).username),
       db.updateUser (applyProfileForm d u))
    else
      (Response.render "blog/user.html" { hasForm := true }, db)

/-- A fresh primary key for a saved post. -/
def DB.nextPostId (db : DB) : Nat :=
  (db.posts.foldr (fun p m => max p.id m) 0) + 1

/-- A fresh primary key for a saved comment. -/
def DB.nextCommentId (db : DB) : Nat :=
  (db.comments.foldr (fun c m => max c.id m) 0) + 1

/-- `form.save(commit=False)` on a fresh `PostForm` followed by assigning
the author: a new post built from the bound fields.  The `is_published`
flag is not a form field; it takes the model default (true) — the models
module is outside this excerpt and no view reads the flag of a new post. -/
def newPostFrom (d : PostFormData) (pid authorId : Nat) : Post :=
  { id := pid, title := d.title, text := d.text, pub_date := d.pub_date,
    author := authorId, category := d.category, location := d.location,
    image := d.image, is_published := true }

/-- `form.save()` on a `PostForm` bound to an existing post: the bound
fields overwrite the instance; pk, author and `is_published` are kept. -/
def applyPostForm (d : PostFormData) (p : Post) : Post :=
  { p with
      title := d.title, text := d.text, pub_date := d.pub_date,
      category := d.category, location := d.location, image := d.image }

/-- Persist an updated post (same primary key). -/
def DB.updatePost (db : DB) (p : Post) : DB :=
  { db with posts := db.posts.map (fun q => if q.id == p.id then p else q) }

/-- Persist an updated comment (same primary key). -/
def DB.updateComment (db : DB) (c : Comment) : DB :=
  { db with comments := db.comments.map (fun d => if d.id == c.id then c else d) }

/-- `create_post` (`@login_required`): a valid form saves a new post whose
author is the requesting user and redirects to that user's profile; an
invalid or unbound form re-renders the create template. -/
def create_post (db : DB) (req : Request) : Response × DB :=
  match req.user with
  | none => (Response.loginRedirect, db)
  | some u =>
    if req.formValid then
      (Response.redirect (Redirect.toProfile u.username),
       { db with posts := db.posts ++ [newPostFrom req.postData db.nextPostId u.id] })
    else
      (Response.render "blog/create.html" { hasForm := true }, db)

/-- `edit_post` (`@login_required`): fetch-or-404; a non-author is
redirected to the post detail page; otherwise a valid form saves and
redirects there, an invalid form re-renders the create template. -/
def edit_post (db : DB) (req : Request) (post_id : Nat) : Response × DB :=
  match req.user with
  | none => (Response.loginRedirect, db)
  | some u =>
    match db.getPost post_id with
    | none => (Response.notFound "No Post matches the given query.", db)
    | some post =>
      if u.id ≠ post.author then
        (Response.redirect (Redirect.toPostDetail post_id), db)
      else if req.formValid then
        (Response.redirect (Redirect.toPostDetail post_id),
         db.updatePost (applyPostForm req.postData post))
      else
        (Response.render "blog/create.html" { hasForm := true }, db)

/-- `add_comment` (`@login_required`): fetch-or-404, visibility gate for
non-authors as in `post_detail`; a valid comment form saves a comment
owned by the requesting user on this post and redirects to the detail
page; otherwise the detail template is re-rendered with the bound form. -/
def add_comment (db : DB) (req : Request) (post_id : Nat) : Response × DB :=
  match req.user with
  | none => (Response.loginRedirect, db)
  | some u =>
    match db.getPost post_id with
    | none => (Response.notFound "No Post matches the given query.", db)
    | some post =>
      if !userIsAuthor (some u) post.author && !db.publicVisible req.now post then
        (Response.notFound "Post not found", db)
      else if req.formValid then
        (Response.redirect (Redirect.toPostDetail post_id),
         { db with comments := db.comments ++
             [{ id := db.nextCommentId, text := req.commentText,
                author := u.id, post := post.id }] })
      else
        (Response.render "blog/detail.html"
          { post := some post, comments := db.commentsOf post.id, hasForm := true }, db)

/-- `edit_comment` (`@login_required`): fetch-or-404; a non-author is
redirected to the detail page; a valid form saves the edited text. -/
def edit_comment (db : DB) (req : Request) (post_id comment_id : Nat) : Response × DB :=
  match req.user with
  | none => (Response.loginRedirect, db)
  | some u =>
    match db.getComment post_id comment_id with
    | none => (Response.notFound "No Comment matches the given query.", db)
    | some comment =>
      if u.id ≠ comment.author then
        (Response.redirect (Redirect.toPostDetail post_id), db)
      else if req.formValid then
        (Response.redirect (Redirect.toPostDetail post_id),
         db.updateComment { comment with text := req.commentText })
      else
        (Response.render "blog/comment.html"
          { comment := some comment, hasForm := true }, db)

/-- `delete_post` (`@login_required`): fetch-or-404; a non-author is
redirected to the detail page; a POST deletes the post (the ORM cascades
to its comments) and redirects to the author's profile; any other method
renders the confirmation template. -/
def delete_post (db : DB) (req : Request) (post_id : Nat) : Response × DB :=
  match req.user with
  | none => (Response.loginRedirect, db)
  | some u =>
    match db.getPost post_id with
    | none => (Response.notFound "No Post matches the given query.", db)
    | some post =>
      if u.id ≠ post.author then
        (Response.redirect (Redirect.toPostDetail post_id), db)
      else if req.method == "POST" then
        (Response.redirect (Redirect.toProfile u.username),
         { db with
             posts := db.posts.filter (fun p => !(p.id == post.id)),
             comments := db.comments.filter (fun c => !(c.post == post.id)) })
      else
        (Response.render "blog/create.html" { hasForm := true }, db)

/-- `delete_comment` (`@login_required`): fetch-or-404; a non-author is
redirected to the detail page; a POST deletes the comment and redirects to
the detail page; any other method renders the confirmation template. -/
def delete_comment (db : DB) (req : Request) (post_id comment_id : Nat) : Response × DB :=
  match req.user with
  | none => (Response.loginRedirect, db)
  | some u =>
    match db.getComment post_id comment_id with
    | none => (Response.notFound "No Comment matches the given query.", db)
    | some comment =>
      if u.id ≠ comment.author then
        (Response.redirect (Redirect.toPostDetail post_id), db)
      else if req.method == "POST" then
        (Response.redirect (Redirect.toPostDetail post_id),
         { db with comments := db.comments.filter (fun c => !(c.id == comment.id)) })
      else
        (Response.render "blog/comment.html" { comment := some comment }, db)

/-! Concrete sample data used to exercise the views on closed inputs. -/

/-- Sample user 1. -/
def aliceW : User := ⟨1, "alice", "Alice", "A", "alice@example.com"⟩

/-- Sample user 2. -/
def bobW : User := ⟨2, "bob", "Bob", "B", "bob@example.com"⟩

/-- A published category. -/
def catGeneralW : Category := ⟨1, "general", true⟩

/-- An unpublished category. -/
def catHiddenW : Category := ⟨2, "hidden", false⟩

/-- A publicly visible post by alice (published, past date, published
category). -/
def postVisibleW : Post := ⟨1, "t1", "b1", 5, 1, 1, none, none, true⟩

/-- A future-dated post by alice. -/
def postFutureW : Post := ⟨2, "t2", "b2", 20, 1, 1, none, none, true⟩

/-- An unpublished post by alice. -/
def postDraftW : Post := ⟨3, "t3", "b3", 5, 1, 1, none, none, false⟩

/-- A post by alice in the unpublished category. -/
def postHiddenCatW : Post := ⟨4, "t4", "b4", 7, 1, 2, none, none, true⟩

/-- A comment by bob on post 1. -/
def commentHiW : Comment := ⟨1, "hi", 2, 1⟩

/-- The sample database. -/
def dbW : DB :=
  ⟨[aliceW, bobW], [catGeneralW, catHiddenW],
   [postVisibleW, postFutureW, postDraftW, postHiddenCatW], [commentHiW]⟩

/-- Sample bound post-form data. -/
def formDataW : PostFormData := ⟨"nt", "nx", 6, none, none, 1⟩

/-- Sample bound profile-edit form data. -/
def profDataW : ProfileEditFormData := ⟨"Robert", "B", "bobby", "bobby@example.com"⟩

/-- A GET request by bob at time 10 with a valid form. -/
def reqBobW : Request := ⟨some bobW, 10, "GET", none, true, formDataW, "nice"⟩

/-- A POST request by alice at time 10 with a valid form. -/
def reqAliceW : Request := ⟨some aliceW, 10, "POST", none, true, formDataW, "nice"⟩

/-- An anonymous GET request at time 10. -/
def reqAnonW : Request := ⟨none, 10, "GET", none, false, formDataW, "nice"⟩

/-- A GET request by bob whose bound form does not validate. -/
def reqBobInvalidW : Request := ⟨some bobW, 10, "GET", none, false, formDataW, "nice"⟩

/-- A GET request by alice (valid form, but not a POST). -/
def reqAliceGetW : Request := ⟨some aliceW, 10, "GET", none, true, formDataW, "nice"⟩

/-- The context the index view renders for `dbW` and `reqAnonW`. -/
def indexCtxW : Context :=
  { page_obj := getPage (dbW.annotatedFeed (fun p =>
      p.is_published && decide (p.pub_date ≤ reqAnonW.now) &&
        dbW.categoryPublished p.category)) 10 reqAnonW.page }

/-! Helper lemmas about the query-model operations. -/

/-- Membership in an ordered insertion. -/
theorem mem_insertDescBy (key : α → Nat) (a b : α) (l : List α) :
    a ∈ insertDescBy key b l ↔ a = b ∨ a ∈ l := by
  induction l with
  | nil => simp [insertDescBy]
  | cons c cs ih =>
    simp only [insertDescBy]
    split
    · simp only [List.mem_cons, ih]
      tauto
    · simp only [List.mem_cons]

/-- Sorting does not change membership. -/
theorem mem_sortDescBy (key : α → Nat) (a : α) (l : List α) :
    a ∈ sortDescBy key l ↔ a ∈ l := by
  induction l with
  | nil => simp [sortDescBy]
  | cons b bs ih =>
    simp only [sortDescBy, mem_insertDescBy, ih, List.mem_cons]

/-- Ordered insertion preserves descending sortedness. -/
theorem pairwise_insertDescBy (key : α → Nat) (a : α) (l : List α)
    (h : List.Pairwise (fun x y => key y ≤ key x) l) :
    List.Pairwise (fun x y => key y ≤ key x) (insertDescBy key a l) := by
  induction l with
  | nil => simp [insertDescBy]
  | cons b bs ih =>
    rw [List.pairwise_cons] at h
    simp only [insertDescBy]
    split
    · rename_i hab
      rw [List.pairwise_cons]
      refine ⟨fun x hx => ?_, ih h.2⟩
      rcases (mem_insertDescBy key x a bs).1 hx with hxa | hxbs
      · exact hxa ▸ hab
      · exact h.1 x hxbs
    · rename_i hab
      push_neg at hab
      rw [List.pairwise_cons]
      refine ⟨fun x hx => ?_, List.pairwise_cons.2 h⟩
      rcases List.mem_cons.1 hx with hxb | hxbs
      · exact hxb ▸ le_of_lt hab
      · exact le_trans (h.1 x hxbs) (le_of_lt hab)

/-- The insertion sort produces a list descending in `key`. -/
theorem sorted_sortDescBy (key : α → Nat) (l : List α) :
    List.Pairwise (fun x y => key y ≤ key x) (sortDescBy key l) := by
  induction l with
  | nil => simp [sortDescBy]
  | cons a rest ih => exact pairwise_insertDescBy key a (sortDescBy key rest) ih

/-- A paginator always has at least one page. -/
theorem one_le_numPages (count per : Nat) : 1 ≤ numPages count per :=
  le_max_right _ _

/-- The page `get_page` settles on is a valid page number. -/
theorem chosenPage_bounds (count per : Nat) (pg : Option Nat) :
    1 ≤ chosenPage count per pg ∧ chosenPage count per pg ≤ numPages count per := by
  cases pg with
  | none => exact ⟨le_refl 1, one_le_numPages count per⟩
  | some n =>
    simp only [chosenPage]
    split
    · exact ⟨one_le_numPages count per, le_refl _⟩
    · rename_i h
      push_neg at h
      exact ⟨h.1, h.2⟩

/-- The delivered page is a sublist of the full queryset. -/
theorem page_items_sublist (l : List α) (per : Nat) (pg : Option Nat) :
    (getPage l per pg).page_items.Sublist l := by
  simpa [getPage] using
    ((List.take_sublist per _).trans (List.drop_sublist _ l))

/-- Items on the delivered page come from the full queryset. -/
theorem mem_page_items (l : List α) (per : Nat) (pg : Option Nat) (a : α)
    (h : a ∈ (getPage l per pg).page_items) : a ∈ l :=
  (page_items_sublist l per pg).mem h

/-- Membership in an annotated, ordered feed. -/
theorem mem_annotatedFeed (db : DB) (f : Post → Bool) (p : Post) (n : Nat) :
    (p, n) ∈ db.annotatedFeed f ↔
      p ∈ db.posts ∧ f p = true ∧ n = db.commentCount p.id := by
  simp only [DB.annotatedFeed, mem_sortDescBy, List.mem_map, List.mem_filter,
    Prod.mk.injEq]
  constructor
  · rintro ⟨q, ⟨hq, hfq⟩, rfl, rfl⟩
    exact ⟨hq, hfq, rfl⟩
  · rintro ⟨hp, hfp, rfl⟩
    exact ⟨p, ⟨hp, hfp⟩, rfl, rfl⟩

/-- A post found by primary key has that primary key. -/
theorem getPost_id (db : DB) (pid : Nat) (post : Post)
    (h : db.getPost pid = some post) : post.id = pid := by
  have := List.find?_some h
  simpa using this

/-- A comment found by primary keys has those primary keys. -/
theorem getComment_ids (db : DB) (pid cid : Nat) (c : Comment)
    (h : db.getComment pid cid = some c) : c.id = cid ∧ c.post = pid := by
  have := List.find?_some h
  simpa using this

/-- The visibility flag unfolded to its three conjuncts. -/
theorem publicVisible_iff (db : DB) (now : Nat) (p : Post) :
    db.publicVisible now p = true ↔
      p.is_published = true ∧ p.pub_date ≤ now ∧
        db.categoryPublished p.category = true := by
  simp [DB.publicVisible, Bool.and_eq_true, decide_eq_true_eq, and_assoc]

/-- What `get_page` delivers for an annotated feed: the full queryset is
descending in `pub_date`, every annotation is the comment count, and the
delivered page is a ≤ 10-element slice at a valid page number. -/
theorem getPage_feed_spec (db : DB) (f : Post → Bool) (pg : Option Nat) :
    List.Pairwise (fun a b => b.1.pub_date ≤ a.1.pub_date)
      (getPage (db.annotatedFeed f) 10 pg).object_list ∧
    List.Pairwise (fun a b => b.1.pub_date ≤ a.1.pub_date)
      (getPage (db.annotatedFeed f) 10 pg).page_items ∧
    (∀ p n, (p, n) ∈ (getPage (db.annotatedFeed f) 10 pg).object_list →
      n = db.commentCount p.id) ∧
    (getPage (db.annotatedFeed f) 10 pg).page_items.length ≤ 10 ∧
    (∃ k, 1 ≤ k ∧
      k ≤ numPages (getPage (db.annotatedFeed f) 10 pg).object_list.length 10 ∧
      (getPage (db.annotatedFeed f) 10 pg).page_items =
        ((getPage (db.annotatedFeed f) 10 pg).object_list.drop ((k - 1) * 10)).take 10) := by
  have hsorted : List.Pairwise (fun a b => b.1.pub_date ≤ a.1.pub_date)
      (db.annotatedFeed f) := by
    simpa [DB.annotatedFeed] using
      sorted_sortDescBy (fun pr : Post × Nat => pr.1.pub_date)
        ((db.posts.filter f).map (fun p => (p, db.commentCount p.id)))
  refine ⟨hsorted, hsorted.sublist (page_items_sublist _ _ _), ?_, ?_, ?_⟩
  · intro p n hmem
    exact ((mem_annotatedFeed db f p n).1 hmem).2.2
  · simp only [getPage]
    simp [List.length_take]
  · exact ⟨chosenPage (db.annotatedFeed f).length 10 pg,
      (chosenPage_bounds _ _ _).1, (chosenPage_bounds _ _ _).2, rfl⟩

/-- C1: for a stored post whose author is not the requesting user,
`post_detail` (and the gate of `add_comment`) raises an HTTP 404 exactly
when the conjunction "`is_published` and `pub_date` at or before now and
category published" fails; when it holds, the post page is rendered and
the comment flow proceeds. -/
theorem post_visibility_gate_404_iff (db : DB) (req : Request) (pid : Nat) (post : Post)
    (hfind : db.getPost pid = some post)
    (hna : userIsAuthor req.user post.author = false) :
    ((post_detail db req pid).isNotFound = true ↔
      ¬(post.is_published = true ∧ post.pub_date ≤ req.now ∧
        db.categoryPublished post.category = true)) ∧
    ((post.is_published = true ∧ post.pub_date ≤ req.now ∧
        db.categoryPublished post.category = true) →
      post_detail db req pid =
        Response.render "blog/detail.html"
          { post := some post, comments := db.commentsOf post.id, hasForm := true }) ∧
    (∀ u, req.user = some u →
      ((add_comment db req pid).1.isNotFound = true ↔
        ¬(post.is_published = true ∧ post.pub_date ≤ req.now ∧
          db.categoryPublished post.category = true))) := by
  have hv := publicVisible_iff db req.now post
  have hiff : ¬(post.is_published = true ∧ post.pub_date ≤ req.now ∧
      db.categoryPublished post.category = true) ↔
      db.publicVisible req.now post = false := by
    rw [← hv]
    cases db.publicVisible req.now post <;> simp
  refine ⟨?_, ?_, ?_⟩
  · rw [hiff]
    cases hpv : db.publicVisible req.now post <;>
      simp [post_detail, hfind, hna, hpv, Response.isNotFound]
  · intro hc
    have hpv := hv.2 hc
    simp [post_detail, hfind, hna, hpv]
  · intro u hu
    rw [hiff]
    rw [hu] at hna
    cases hpv : db.publicVisible req.now post <;>
      cases hfv : req.formValid <;>
        simp [add_comment, hu, hfind, hna, hpv, hfv, Response.isNotFound]

/-- C1 witness: bob (not the author) requests the visible post 1: no 404
from `post_detail` or `add_comment`. -/
theorem post_visibility_gate_404_iff_witness :
    ((post_detail dbW reqBobW 1).isNotFound = true ↔
      ¬(postVisibleW.is_published = true ∧ postVisibleW.pub_date ≤ reqBobW.now ∧
        dbW.categoryPublished postVisibleW.category = true)) ∧
    ((add_comment dbW reqBobW 1).1.isNotFound = true ↔
      ¬(postVisibleW.is_published = true ∧ postVisibleW.pub_date ≤ reqBobW.now ∧
        dbW.categoryPublished postVisibleW.category = true)) :=
  ⟨(post_visibility_gate_404_iff dbW reqBobW 1 postVisibleW (by decide) (by decide)).1,
   (post_visibility_gate_404_iff dbW reqBobW 1 postVisibleW (by decide) (by decide)).2.2
     bobW rfl⟩

/-- C2: every post delivered by the index feed, the category feed, or the
profile feed viewed by a non-owner satisfies the public-visibility rule
(for the category feed the category's published flag comes from the
category lookup itself). -/
theorem feeds_show_only_public_posts (db : DB) (req : Request) (slug uname : String) :
    (∀ t ctx, index db req = Response.render t ctx →
      ∀ p n, (p, n) ∈ ctx.page_obj.page_items →
        p.is_published = true ∧ p.pub_date ≤ req.now ∧
          db.categoryPublished p.category = true) ∧
    (∀ t ctx, category_posts db req slug = Response.render t ctx →
      ∀ p n, (p, n) ∈ ctx.page_obj.page_items →
        p.is_published = true ∧ p.pub_date ≤ req.now ∧
          ∃ c, ctx.category = some c ∧ p.category = c.id ∧ c.is_published = true) ∧
    (∀ t ctx prof, profile db req uname = Response.render t ctx →
      ctx.profileOf = some prof → userIsAuthor req.user prof.id = false →
      ∀ p n, (p, n) ∈ ctx.page_obj.page_items →
        p.is_published = true ∧ p.pub_date ≤ req.now ∧
          db.categoryPublished p.category = true) := by
  refine ⟨?_, ?_, ?_⟩
  · intro t ctx hr p n hmem
    simp only [index, Response.render.injEq] at hr
    obtain ⟨-, rfl⟩ := hr
    obtain ⟨-, hfp, -⟩ :=
      (mem_annotatedFeed db _ p n).1 (mem_page_items _ _ _ _ hmem)
    simp only [Bool.and_eq_true, decide_eq_true_eq] at hfp
    exact ⟨hfp.1.1, hfp.1.2, hfp.2⟩
  · intro t ctx hr p n hmem
    cases hcat : db.categories.find? (fun c => c.slug == slug && c.is_published) with
    | none => simp [category_posts, hcat] at hr
    | some category =>
      simp only [category_posts, hcat, Response.render.injEq] at hr
      obtain ⟨-, rfl⟩ := hr
      have hc := List.find?_some hcat
      simp only [Bool.and_eq_true, beq_iff_eq] at hc
      obtain ⟨-, hfp, -⟩ :=
        (mem_annotatedFeed db _ p n).1 (mem_page_items _ _ _ _ hmem)
      simp only [Bool.and_eq_true, decide_eq_true_eq, beq_iff_eq] at hfp
      exact ⟨hfp.1.2, hfp.2, category, rfl, hfp.1.1, hc.2⟩
  · intro t ctx prof hr hpr hna p n hmem
    cases huser : db.users.find? (fun w => w.username == uname) with
    | none => simp [profile, huser] at hr
    | some prof0 =>
      simp only [profile, huser, Response.render.injEq] at hr
      obtain ⟨-, rfl⟩ := hr
      simp only [Option.some.injEq] at hpr
      subst hpr
      rw [hna] at hmem
      simp only [Bool.false_eq_true, if_false] at hmem
      obtain ⟨-, hfp, -⟩ :=
        (mem_annotatedFeed db _ p n).1 (mem_page_items _ _ _ _ hmem)
      simp only [Bool.and_eq_true, decide_eq_true_eq, beq_iff_eq] at hfp
      exact ⟨hfp.1.1.2, hfp.1.2, hfp.2⟩

/-- C2 witness: the visible post 1 on page 1 of the anonymous index feed
satisfies the visibility rule. -/
theorem feeds_show_only_public_posts_witness :
    postVisibleW.is_published = true ∧ postVisibleW.pub_date ≤ reqAnonW.now ∧
      dbW.categoryPublished postVisibleW.category = true :=
  (feeds_show_only_public_posts dbW reqAnonW "general" "alice").1
    "blog/index.html" indexCtxW (by decide) postVisibleW 1 (by decide)

/-- C3: an authenticated non-author hitting `edit_post`, `delete_post`,
`edit_comment` or `delete_comment` gets a redirect to the post's detail
page and the database is left entirely unchanged. -/
theorem non_author_mutations_rejected (db : DB) (req : Request) (pid cid : Nat) (u : User)
    (hu : req.user = some u) :
    (∀ post, db.getPost pid = some post → u.id ≠ post.author →
      edit_post db req pid = (Response.redirect (Redirect.toPostDetail pid), db) ∧
      delete_post db req pid = (Response.redirect (Redirect.toPostDetail pid), db)) ∧
    (∀ c, db.getComment pid cid = some c → u.id ≠ c.author →
      edit_comment db req pid cid = (Response.redirect (Redirect.toPostDetail pid), db) ∧
      delete_comment db req pid cid =
        (Response.redirect (Redirect.toPostDetail pid), db)) := by
  refine ⟨fun post hf hne => ⟨?_, ?_⟩, fun c hf hne => ⟨?_, ?_⟩⟩ <;>
    simp [edit_post, delete_post, edit_comment, delete_comment, hu, hf, hne]

/-- C3 witness: bob cannot edit or delete alice's post 1. -/
theorem non_author_mutations_rejected_witness :
    edit_post dbW reqBobW 1 = (Response.redirect (Redirect.toPostDetail 1), dbW) ∧
    delete_post dbW reqBobW 1 = (Response.redirect (Redirect.toPostDetail 1), dbW) :=
  (non_author_mutations_rejected dbW reqBobW 1 1 bobW rfl).1 postVisibleW
    (by decide) (by decide)

/-- C4: the author always sees their own content: `post_detail` renders an
author's post with no publication check, and the own-profile feed is built
from all of the user's posts, each of which appears in the paginator's
queryset. -/
theorem author_sees_own_content (db : DB) (req : Request) (pid : Nat) (uname : String)
    (u : User) (hu : req.user = some u) :
    (∀ post, db.getPost pid = some post → post.author = u.id →
      post_detail db req pid =
        Response.render "blog/detail.html"
          { post := some post, comments := db.commentsOf post.id, hasForm := true }) ∧
    (∀ prof, db.users.find? (fun w => w.username == uname) = some prof → prof.id = u.id →
      profile db req uname =
        Response.render "blog/profile.html"
          { profileOf := some prof,
            page_obj := getPage (db.annotatedFeed (fun q => q.author == prof.id))
              10 req.page } ∧
      ∀ p, p ∈ db.posts → p.author = prof.id →
        (p, db.commentCount p.id) ∈
          (getPage (db.annotatedFeed (fun q => q.author == prof.id))
            10 req.page).object_list) := by
  constructor
  · intro post hf ha
    simp [post_detail, hf, hu, userIsAuthor, ha]
  · intro prof hf hp
    constructor
    · simp [profile, hf, hu, userIsAuthor, hp]
    · intro p hpmem hpa
      have hfeed : (p, db.commentCount p.id) ∈
          db.annotatedFeed (fun q => q.author == prof.id) :=
        (mem_annotatedFeed db _ p _).2 ⟨hpmem, by simp [hpa], rfl⟩
      simpa [getPage] using hfeed

/-- C4 witness: alice sees her own future-dated post 2. -/
theorem author_sees_own_content_witness :
    post_detail dbW reqAliceW 2 =
      Response.render "blog/detail.html"
        { post := some postFutureW, comments := dbW.commentsOf postFutureW.id,
          hasForm := true } :=
  (author_sees_own_content dbW reqAliceW 2 "alice" aliceW rfl).1 postFutureW
    (by decide) (by decide)

/-- C5: on an author's POST, `delete_post` removes the post and redirects
to the requesting user's profile, and `delete_comment` removes the comment
and redirects to the post's detail page. -/
theorem deletion_redirect_targets (db : DB) (req : Request) (pid cid : Nat) (u : User)
    (hu : req.user = some u) (hm : req.method = "POST") :
    (∀ post, db.getPost pid = some post → u.id = post.author →
      (delete_post db req pid).1 = Response.redirect (Redirect.toProfile u.username) ∧
      ((delete_post db req pid).2).getPost pid = none) ∧
    (∀ c, db.getComment pid cid = some c → u.id = c.author →
      (delete_comment db req pid cid).1 =
        Response.redirect (Redirect.toPostDetail pid) ∧
      ((delete_comment db req pid cid).2).getComment pid cid = none) := by
  constructor
  · intro post hf ha
    have hpid := getPost_id db pid post hf
    refine ⟨by simp [delete_post, hu, hf, ha, hm], ?_⟩
    simp only [delete_post, hu, hf, ha, hm]
    simp only [ne_eq, not_true_eq_false, if_false, beq_self_eq_true, if_true]
    simp only [DB.getPost, List.find?_eq_none]
    intro x hx
    obtain ⟨-, hxid⟩ := List.mem_filter.1 hx
    simp only [Bool.not_eq_true', beq_eq_false_iff_ne, ne_eq] at hxid
    simp only [beq_iff_eq]
    intro hcon
    exact hxid (by omega)
  · intro c hf ha
    have hids := getComment_ids db pid cid c hf
    refine ⟨by simp [delete_comment, hu, hf, ha, hm], ?_⟩
    simp only [delete_comment, hu, hf, ha, hm]
    simp only [ne_eq, not_true_eq_false, if_false, beq_self_eq_true, if_true]
    simp only [DB.getComment, List.find?_eq_none]
    intro x hx
    obtain ⟨-, hxid⟩ := List.mem_filter.1 hx
    simp only [Bool.not_eq_true', beq_eq_false_iff_ne, ne_eq] at hxid
    simp only [Bool.and_eq_true, beq_iff_eq, not_and]
    intro hcon
    exact absurd (by omega : x.id = c.id) hxid

/-- C5 witness: alice's POST deletes her post 1 and redirects to her
profile; bob's POST deletes his comment 1 and redirects to the detail
page. -/
theorem deletion_redirect_targets_witness :
    (delete_post dbW reqAliceW 1).1 =
      Response.redirect (Redirect.toProfile aliceW.username) ∧
    ((delete_post dbW reqAliceW 1).2).getPost 1 = none :=
  (deletion_redirect_targets dbW reqAliceW 1 1 aliceW rfl rfl).1 postVisibleW
    (by decide) (by decide)

/-- C6: across every view, the only error behaviours are the HTTP 404
(object lookup failure or visibility rejection) and the invalid-form
re-render: `post_detail` 404s exactly on a failed lookup or a rejected
non-author visibility check; `create_post` never 404s and re-renders the
bound form when it is invalid; `add_comment` 404s exactly on lookup or
visibility failure and otherwise re-renders the bound invalid form
without touching the database; `index` never 404s; `category_posts` and
`profile` 404 exactly when their lookup fails; `edit_post`,
`edit_comment`, `delete_post` and `delete_comment` 404 exactly when
their lookup fails, and the edit views re-render the invalid bound form
with the database unchanged; `EditProfileView` never 404s and re-renders
its invalid form with the database unchanged. -/
theorem error_paths_404_or_form_rerender (db : DB) (req : Request) (pid cid : Nat)
    (slug uname : String) (d : ProfileEditFormData) :
    ((post_detail db req pid).isNotFound = true ↔
      db.getPost pid = none ∨
        ∃ post, db.getPost pid = some post ∧
          userIsAuthor req.user post.author = false ∧
          db.publicVisible req.now post = false) ∧
    (∀ u, req.user = some u →
      (create_post db req).1.isNotFound = false ∧
      (req.formValid = false →
        create_post db req =
          (Response.render "blog/create.html" { hasForm := true }, db))) ∧
    (∀ u, req.user = some u →
      ((add_comment db req pid).1.isNotFound = true ↔
        db.getPost pid = none ∨
          ∃ post, db.getPost pid = some post ∧
            userIsAuthor (some u) post.author = false ∧
            db.publicVisible req.now post = false) ∧
      (req.formValid = false → (add_comment db req pid).1.isNotFound = false →
        ∃ post, db.getPost pid = some post ∧
          add_comment db req pid =
            (Response.render "blog/detail.html"
              { post := some post, comments := db.commentsOf post.id,
                hasForm := true }, db))) ∧
    ((index db req).isNotFound = false) ∧
    ((category_posts db req slug).isNotFound = true ↔
      db.categories.find? (fun c => c.slug == slug && c.is_published) = none) ∧
    ((profile db req uname).isNotFound = true ↔
      db.users.find? (fun w => w.username == uname) = none) ∧
    (∀ u, req.user = some u →
      ((edit_post db req pid).1.isNotFound = true ↔ db.getPost pid = none) ∧
      (∀ post, db.getPost pid = some post → u.id = post.author →
        req.formValid = false →
        edit_post db req pid =
          (Response.render "blog/create.html" { hasForm := true }, db))) ∧
    (∀ u, req.user = some u →
      ((edit_comment db req pid cid).1.isNotFound = true ↔
        db.getComment pid cid = none) ∧
      (∀ c, db.getComment pid cid = some c → u.id = c.author →
        req.formValid = false →
        edit_comment db req pid cid =
          (Response.render "blog/comment.html"
            { comment := some c, hasForm := true }, db))) ∧
    (∀ u, req.user = some u →
      ((delete_post db req pid).1.isNotFound = true ↔ db.getPost pid = none)) ∧
    (∀ u, req.user = some u →
      ((delete_comment db req pid cid).1.isNotFound = true ↔
        db.getComment pid cid = none)) ∧
    (∀ u, req.user = some u →
      (EditProfileView db req d).1.isNotFound = false ∧
      (req.formValid = false →
        EditProfileView db req d =
          (Response.render "blog/user.html" { hasForm := true }, db))) := by
  refine ⟨?_, ?_, ?_, ?_, ?_, ?_, ?_, ?_, ?_, ?_, ?_⟩
  · cases hf : db.getPost pid with
    | none => simp [post_detail, hf, Response.isNotFound]
    | some post =>
      cases ha : userIsAuthor req.user post.author <;>
        cases hpv : db.publicVisible req.now post <;>
          simp [post_detail, hf, ha, hpv, Response.isNotFound]
  · intro u hu
    refine ⟨?_, ?_⟩
    · cases hfv : req.formValid <;> simp [create_post, hu, hfv, Response.isNotFound]
    · intro hfv
      simp [create_post, hu, hfv]
  · intro u hu
    constructor
    · cases hf : db.getPost pid with
      | none => simp [add_comment, hu, hf, Response.isNotFound]
      | some post =>
        cases ha : userIsAuthor (some u) post.author <;>
          cases hpv : db.publicVisible req.now post <;>
            cases hfv : req.formValid <;>
              simp [add_comment, hu, hf, ha, hpv, hfv, Response.isNotFound]
    · intro hfv h404
      cases hf : db.getPost pid with
      | none => simp [add_comment, hu, hf, Response.isNotFound] at h404
      | some post =>
        refine ⟨post, rfl, ?_⟩
        cases ha : userIsAuthor (some u) post.author <;>
          cases hpv : db.publicVisible req.now post
        · simp [add_comment, hu, hf, ha, hpv, Response.isNotFound] at h404
        · simp [add_comment, hu, hf, ha, hpv, hfv]
        · simp [add_comment, hu, hf, ha, hpv, hfv]
        · simp [add_comment, hu, hf, ha, hpv, hfv]
  · simp [index, Response.isNotFound]
  · cases hcat : db.categories.find? (fun c => c.slug == slug && c.is_published) with
    | none => simp [category_posts, hcat, Response.isNotFound]
    | some category => simp [category_posts, hcat, Response.isNotFound]
  · cases huser : db.users.find? (fun w => w.username == uname) with
    | none => simp [profile, huser, Response.isNotFound]
    | some prof => simp [profile, huser, Response.isNotFound]
  · intro u hu
    constructor
    · cases hf : db.getPost pid with
      | none => simp [edit_post, hu, hf, Response.isNotFound]
      | some post =>
        by_cases ha : u.id = post.author <;>
          cases hfv : req.formValid <;>
            simp [edit_post, hu, hf, ha, hfv, Response.isNotFound]
    · intro post hf ha hfv
      simp [edit_post, hu, hf, ha, hfv]
  · intro u hu
    constructor
    · cases hf : db.getComment pid cid with
      | none => simp [edit_comment, hu, hf, Response.isNotFound]
      | some c =>
        by_cases ha : u.id = c.author <;>
          cases hfv : req.formValid <;>
            simp [edit_comment, hu, hf, ha, hfv, Response.isNotFound]
    · intro c hf ha hfv
      simp [edit_comment, hu, hf, ha, hfv]
  · intro u hu
    cases hf : db.getPost pid with
    | none => simp [delete_post, hu, hf, Response.isNotFound]
    | some post =>
      by_cases ha : u.id = post.author <;>
        cases hm : req.method == "POST" <;>
          simp [delete_post, hu, hf, ha, hm, Response.isNotFound]
  · intro u hu
    cases hf : db.getComment pid cid with
    | none => simp [delete_comment, hu, hf, Response.isNotFound]
    | some c =>
      by_cases ha : u.id = c.author <;>
        cases hm : req.method == "POST" <;>
          simp [delete_comment, hu, hf, ha, hm, Response.isNotFound]
  · intro u hu
    refine ⟨?_, ?_⟩
    · cases hfv : req.formValid <;>
        simp [EditProfileView, hu, hfv, Response.isNotFound]
    · intro hfv
      simp [EditProfileView, hu, hfv]

/-- C6 witness: bob's invalid form on `create_post` is not a 404 and is
re-rendered on the create template with the database unchanged, his
invalid `EditProfileView` form is re-rendered on the user template, and
the index never 404s. -/
theorem error_paths_404_or_form_rerender_witness :
    (create_post dbW reqBobInvalidW).1.isNotFound = false ∧
    create_post dbW reqBobInvalidW =
      (Response.render "blog/create.html" { hasForm := true }, dbW) ∧
    EditProfileView dbW reqBobInvalidW profDataW =
      (Response.render "blog/user.html" { hasForm := true }, dbW) ∧
    (index dbW reqBobInvalidW).isNotFound = false :=
  ⟨((error_paths_404_or_form_rerender dbW reqBobInvalidW 1 1 "general" "alice"
      profDataW).2.1 bobW rfl).1,
   ((error_paths_404_or_form_rerender dbW reqBobInvalidW 1 1 "general" "alice"
      profDataW).2.1 bobW rfl).2 rfl,
   ((error_paths_404_or_form_rerender dbW reqBobInvalidW 1 1 "general" "alice"
      profDataW).2.2.2.2.2.2.2.2.2.2 bobW rfl).2 rfl,
   (error_paths_404_or_form_rerender dbW reqBobInvalidW 1 1 "general" "alice"
      profDataW).2.2.2.1⟩

/-- C7: across every view that mutates stored state, the only
authorization condition is the equality between the requesting user and
the target's author: `edit_post`, `edit_comment`, `delete_post` and
`delete_comment` branch solely on it (their full behaviour is determined
by the equality outcome plus the form/method branch), `create_post` and
`EditProfileView` apply no authorization check at all (any authenticated
user's valid form is saved), and in `add_comment` the author-equality
test (disjoined with visibility in the 404 gate) is the only
user-dependent condition before the save. -/
theorem authorization_is_author_equality (db : DB) (req : Request) (pid cid : Nat)
    (u : User) (d : ProfileEditFormData) (hu : req.user = some u) :
    (∀ post, db.getPost pid = some post →
      (u.id ≠ post.author →
        edit_post db req pid = (Response.redirect (Redirect.toPostDetail pid), db)) ∧
      (u.id = post.author →
        edit_post db req pid =
          (if req.formValid then
            (Response.redirect (Redirect.toPostDetail pid),
             db.updatePost (applyPostForm req.postData post))
          else
            (Response.render "blog/create.html" { hasForm := true }, db)))) ∧
    (req.formValid = true →
      create_post db req =
        (Response.redirect (Redirect.toProfile u.username),
         { db with
             posts := db.posts ++ [newPostFrom req.postData db.nextPostId u.id] })) ∧
    (∀ post, db.getPost pid = some post →
      (u.id = post.author ∨ db.publicVisible req.now post = true) →
      req.formValid = true →
      add_comment db req pid =
        (Response.redirect (Redirect.toPostDetail pid),
         { db with
             comments := db.comments ++
               [{ id := db.nextCommentId, text := req.commentText,
                  author := u.id, post := post.id }] })) ∧
    (∀ c, db.getComment pid cid = some c →
      (u.id ≠ c.author →
        edit_comment db req pid cid =
          (Response.redirect (Redirect.toPostDetail pid), db)) ∧
      (u.id = c.author →
        edit_comment db req pid cid =
          (if req.formValid then
            (Response.redirect (Redirect.toPostDetail pid),
             db.updateComment { c with text := req.commentText })
          else
            (Response.render "blog/comment.html"
              { comment := some c, hasForm := true }, db)))) ∧
    (∀ post, db.getPost pid = some post →
      (u.id ≠ post.author →
        delete_post db req pid =
          (Response.redirect (Redirect.toPostDetail pid), db)) ∧
      (u.id = post.author →
        delete_post db req pid =
          (if req.method == "POST" then
            (Response.redirect (Redirect.toProfile u.username),
             { db with
                 posts := db.posts.filter (fun p => !(p.id == post.id)),
                 comments := db.comments.filter (fun c => !(c.post == post.id)) })
          else
            (Response.render "blog/create.html" { hasForm := true }, db)))) ∧
    (∀ c, db.getComment pid cid = some c →
      (u.id ≠ c.author →
        delete_comment db req pid cid =
          (Response.redirect (Redirect.toPostDetail pid), db)) ∧
      (u.id = c.author →
        delete_comment db req pid cid =
          (if req.method == "POST" then
            (Response.redirect (Redirect.toPostDetail pid),
             { db with comments := db.comments.filter (fun w => !(w.id == c.id)) })
          else
            (Response.render "blog/comment.html" { comment := some c }, db)))) ∧
    (EditProfileView db req d =
      (if req.formValid then
        (Response.redirect (Redirect.toProfile (applyProfileForm d u).username),
         db.updateUser (applyProfileForm d u))
      else
        (Response.render "blog/user.html" { hasForm := true }, db))) := by
  refine ⟨?_, ?_, ?_, ?_, ?_, ?_, ?_⟩
  · intro post hf
    constructor
    · intro hne
      simp [edit_post, hu, hf, hne]
    · intro ha
      cases hfv : req.formValid <;> simp [edit_post, hu, hf, ha, hfv]
  · intro hfv
    simp [create_post, hu, hfv]
  · intro post hf hor hfv
    rcases hor with ha | hb
    · simp [add_comment, hu, hf, hfv, userIsAuthor, ha]
    · simp [add_comment, hu, hf, hfv, hb]
  · intro c hf
    constructor
    · intro hne
      simp [edit_comment, hu, hf, hne]
    · intro ha
      cases hfv : req.formValid <;> simp [edit_comment, hu, hf, ha, hfv]
  · intro post hf
    constructor
    · intro hne
      simp [delete_post, hu, hf, hne]
    · intro ha
      cases hm : req.method == "POST" <;> simp [delete_post, hu, hf, ha, hm]
  · intro c hf
    constructor
    · intro hne
      simp [delete_comment, hu, hf, hne]
    · intro ha
      cases hm : req.method == "POST" <;> simp [delete_comment, hu, hf, ha, hm]
  · cases hfv : req.formValid <;> simp [EditProfileView, hu, hfv]

/-- C7 witness: bob is redirected away from editing alice's post, bob's
valid `create_post` form is saved with no further check, bob deletes his
own comment through the equality branch alone, and his profile edit is
saved with no authorization condition. -/
theorem authorization_is_author_equality_witness :
    edit_post dbW reqBobW 2 = (Response.redirect (Redirect.toPostDetail 2), dbW) ∧
    create_post dbW reqBobW =
      (Response.redirect (Redirect.toProfile bobW.username),
       { dbW with
           posts := dbW.posts ++ [newPostFrom reqBobW.postData dbW.nextPostId bobW.id] }) ∧
    delete_comment dbW reqBobW 1 1 =
      (if reqBobW.method == "POST" then
        (Response.redirect (Redirect.toPostDetail 1),
         { dbW with comments := dbW.comments.filter (fun w => !(w.id == commentHiW.id)) })
      else
        (Response.render "blog/comment.html" { comment := some commentHiW }, dbW)) ∧
    EditProfileView dbW reqBobW profDataW =
      (if reqBobW.formValid then
        (Response.redirect (Redirect.toProfile (applyProfileForm profDataW bobW).username),
         dbW.updateUser (applyProfileForm profDataW bobW))
      else
        (Response.render "blog/user.html" { hasForm := true }, dbW)) :=
  ⟨((authorization_is_author_equality dbW reqBobW 2 1 bobW profDataW rfl).1 postFutureW
      (by decide)).1 (by decide),
   (authorization_is_author_equality dbW reqBobW 2 1 bobW profDataW rfl).2.1 rfl,
   ((authorization_is_author_equality dbW reqBobW 1 1 bobW profDataW rfl).2.2.2.2.2.1
      commentHiW (by decide)).2 (by decide),
   (authorization_is_author_equality dbW reqBobW 1 1 bobW profDataW rfl).2.2.2.2.2.2⟩

/-- C8: objects created through the views are owned by their creator: a
valid `create_post` form appends exactly one post whose author field is
the requesting user (the form binds no author field), and a successful
`add_comment` appends exactly one comment authored by the requesting user
and attached to the addressed post. -/
theorem created_objects_owned_by_creator (db : DB) (req : Request) (pid : Nat) (u : User)
    (hu : req.user = some u) (hfv : req.formValid = true) :
    ((create_post db req).2.posts =
      db.posts ++ [newPostFrom req.postData db.nextPostId u.id] ∧
     (newPostFrom req.postData db.nextPostId u.id).author = u.id) ∧
    (∀ post, db.getPost pid = some post →
      (add_comment db req pid).1.isNotFound = false →
      (add_comment db req pid).2.comments =
        db.comments ++
          [{ id := db.nextCommentId, text := req.commentText,
             author := u.id, post := pid }]) := by
  constructor
  · exact ⟨by simp [create_post, hu, hfv], rfl⟩
  · intro post hf h404
    have hpid := getPost_id db pid post hf
    cases hg : (!userIsAuthor (some u) post.author && !db.publicVisible req.now post) with
    | true => simp [add_comment, hu, hf, hg, Response.isNotFound] at h404
    | false => simp [add_comment, hu, hf, hg, hfv, hpid]

/-- C8 witness: bob's new post is appended with bob as author, and bob's
comment on post 1 is appended with bob as author on post 1. -/
theorem created_objects_owned_by_creator_witness :
    (create_post dbW reqBobW).2.posts =
      dbW.posts ++ [newPostFrom reqBobW.postData dbW.nextPostId bobW.id] ∧
    (add_comment dbW reqBobW 1).2.comments =
      dbW.comments ++
        [{ id := dbW.nextCommentId, text := reqBobW.commentText,
           author := bobW.id, post := 1 }] :=
  ⟨((created_objects_owned_by_creator dbW reqBobW 1 bobW rfl rfl).1).1,
   (created_objects_owned_by_creator dbW reqBobW 1 bobW rfl rfl).2 postVisibleW
     (by decide) (by decide)⟩

/-- C9: for the object's author, `delete_post` and `delete_comment`
mutate nothing on a non-POST request: the database is returned unchanged
and the confirmation template is rendered. -/
theorem delete_views_mutate_only_on_post_method (db : DB) (req : Request)
    (pid cid : Nat) (u : User) (hu : req.user = some u) (hm : req.method ≠ "POST") :
    (∀ post, db.getPost pid = some post → u.id = post.author →
      delete_post db req pid =
        (Response.render "blog/create.html" { hasForm := true }, db)) ∧
    (∀ c, db.getComment pid cid = some c → u.id = c.author →
      delete_comment db req pid cid =
        (Response.render "blog/comment.html" { comment := some c }, db)) := by
  constructor
  · intro post hf ha
    simp [delete_post, hu, hf, ha, hm]
  · intro c hf ha
    simp [delete_comment, hu, hf, ha, hm]

/-- C9 witness: alice's GET on `delete_post` and bob's GET on
`delete_comment` render the confirmation pages and change nothing. -/
theorem delete_views_mutate_only_on_post_method_witness :
    delete_post dbW reqAliceGetW 1 =
      (Response.render "blog/create.html" { hasForm := true }, dbW) ∧
    delete_comment dbW reqBobW 1 1 =
      (Response.render "blog/comment.html" { comment := some commentHiW }, dbW) :=
  ⟨(delete_views_mutate_only_on_post_method dbW reqAliceGetW 1 1 aliceW rfl
      (by decide)).1 postVisibleW (by decide) (by decide),
   (delete_views_mutate_only_on_post_method dbW reqBobW 1 1 bobW rfl
      (by decide)).2 commentHiW (by decide) (by decide)⟩

/-- C10: every feed view delivers its queryset ordered by `pub_date`
descending, annotated with each post's comment count, and paginated 10 per
page: the delivered page is a ≤ 10-element slice of the queryset at a
valid page number for any raw `page` parameter. -/
theorem feed_pagination_order_counts (db : DB) (req : Request) (slug uname : String)
    (t : String) (ctx : Context)
    (h : index db req = Response.render t ctx ∨
         category_posts db req slug = Response.render t ctx ∨
         profile db req uname = Response.render t ctx) :
    List.Pairwise (fun a b => b.1.pub_date ≤ a.1.pub_date) ctx.page_obj.object_list ∧
    List.Pairwise (fun a b => b.1.pub_date ≤ a.1.pub_date) ctx.page_obj.page_items ∧
    (∀ p n, (p, n) ∈ ctx.page_obj.object_list → n = db.commentCount p.id) ∧
    ctx.page_obj.page_items.length ≤ 10 ∧
    (∃ k, 1 ≤ k ∧ k ≤ numPages ctx.page_obj.object_list.length 10 ∧
      ctx.page_obj.page_items =
        (ctx.page_obj.object_list.drop ((k - 1) * 10)).take 10) := by
  rcases h with h | h | h
  · simp only [index, Response.render.injEq] at h
    obtain ⟨-, rfl⟩ := h
    exact getPage_feed_spec db _ req.page
  · cases hcat : db.categories.find? (fun c => c.slug == slug && c.is_published) with
    | none => simp [category_posts, hcat] at h
    | some category =>
      simp only [category_posts, hcat, Response.render.injEq] at h
      obtain ⟨-, rfl⟩ := h
      exact getPage_feed_spec db _ req.page
  · cases huser : db.users.find? (fun w => w.username == uname) with
    | none => simp [profile, huser] at h
    | some prof =>
      simp only [profile, huser, Response.render.injEq] at h
      obtain ⟨-, rfl⟩ := h
      have hex : ∃ f, (if userIsAuthor req.user prof.id then
            db.annotatedFeed (fun p => p.author == prof.id)
          else
            db.annotatedFeed (fun p =>
              p.author == prof.id && p.is_published && decide (p.pub_date ≤ req.now) &&
                db.categoryPublished p.category)) = db.annotatedFeed f := by
        cases userIsAuthor req.user prof.id
        · exact ⟨_, if_neg (by simp)⟩
        · exact ⟨_, if_pos rfl⟩
      obtain ⟨f, hfeq⟩ := hex
      rw [hfeq]
      exact getPage_feed_spec db f req.page

/-- C10 witness: the anonymous index page of the sample database holds at
most 10 posts. -/
theorem feed_pagination_order_counts_witness :
    indexCtxW.page_obj.page_items.length ≤ 10 :=
  (feed_pagination_order_counts dbW reqAnonW "general" "alice"
      "blog/index.html" indexCtxW (Or.inl (by decide))).2.2.2.1

end Blog
